import Mathlib

/-!
Shallow embedding of the workflow engine of `src/streamlit_app.py`
(Streamlit Workflow Tracker — Fee Uplift).

Pure data tables (`NEXT_TEAM_HINT`, `TRANSITIONS`) and the engine
functions (`assign_next_team`, `create_task_for_case`, `log_action`,
`apply_transition`) are translated directly from the source.  The
SQLAlchemy session is modelled by explicit state: a `Case` carries its
own task list and audit-log list (the ORM relationships
`Case.tasks` / `Case.logs`), and the `Team` table is passed as the list
of team names present in the store.  Timestamps are integers counting
seconds; `timedelta(days = d)` becomes `d * 86400`.
-/

set_option maxRecDepth 4000

namespace WorkflowApp

/-- `class CaseStatus(str, enum.Enum)` from the source. -/
inductive CaseStatus where
  | DRAFT
  | READY_TO_SEND
  | SENT_TO_CLIENT
  | CLIENT_SIGNED
  | CLIENT_OPTED_OUT
  | RECEIVED_PAPERWORK
  | SUBMITTED_TO_PROVIDER
  | PROVIDER_UPLIFTED
  | IO_CLOSED_NEW_FEE
  | COMPLETED
deriving DecidableEq, Repr, Fintype

/-- `class TaskStatus(str, enum.Enum)` from the source. -/
inductive TaskStatus where
  | OPEN
  | DONE
  | CANCELLED
deriving DecidableEq, Repr

/-- The string value of each `CaseStatus` member (its enum value). -/
def CaseStatus.value : CaseStatus → String
  | .DRAFT => "DRAFT"
  | .READY_TO_SEND => "READY_TO_SEND"
  | .SENT_TO_CLIENT => "SENT_TO_CLIENT"
  | .CLIENT_SIGNED => "CLIENT_SIGNED"
  | .CLIENT_OPTED_OUT => "CLIENT_OPTED_OUT"
  | .RECEIVED_PAPERWORK => "RECEIVED_PAPERWORK"
  | .SUBMITTED_TO_PROVIDER => "SUBMITTED_TO_PROVIDER"
  | .PROVIDER_UPLIFTED => "PROVIDER_UPLIFTED"
  | .IO_CLOSED_NEW_FEE => "IO_CLOSED_NEW_FEE"
  | .COMPLETED => "COMPLETED"

/-- `DEFAULT_TEAMS` from the source: the team names seeded by
`bootstrap_db` when the team table is empty. -/
def DEFAULT_TEAMS : List String :=
  ["Data", "Admin Solution", "Ops Support", "Tech Excellence Center",
   "Submission & Novation", "Support Hub", "Post", "IS"]

/-- `NEXT_TEAM_HINT`: maps each status to the name of the team that
typically acts next; `none` models the Python `None` entry. -/
def NEXT_TEAM_HINT : CaseStatus → Option String
  | .DRAFT => some "Data"
  | .READY_TO_SEND => some "Admin Solution"
  | .SENT_TO_CLIENT => some "Ops Support"
  | .CLIENT_SIGNED => some "Submission & Novation"
  | .CLIENT_OPTED_OUT => some "Support Hub"
  | .RECEIVED_PAPERWORK => some "Submission & Novation"
  | .SUBMITTED_TO_PROVIDER => some "Tech Excellence Center"
  | .PROVIDER_UPLIFTED => some "IS"
  | .IO_CLOSED_NEW_FEE => some "Admin Solution"
  | .COMPLETED => none

/-- `TRANSITIONS`: association list from `(from_status, action_label)`
to `(to_status, audit_action)`, in the source's insertion order. -/
def TRANSITIONS : List ((CaseStatus × String) × (CaseStatus × String)) :=
  [ ((.DRAFT, "Mark Ready to Send"), (.READY_TO_SEND, "ready_to_send")),
    ((.READY_TO_SEND, "Send to Client"), (.SENT_TO_CLIENT, "sent_to_client")),
    ((.SENT_TO_CLIENT, "Mark Client Signed"), (.CLIENT_SIGNED, "client_signed")),
    ((.SENT_TO_CLIENT, "Mark Client Opted Out"), (.CLIENT_OPTED_OUT, "client_opted_out")),
    ((.CLIENT_SIGNED, "Mark Docs Received"), (.RECEIVED_PAPERWORK, "received_paperwork")),
    ((.RECEIVED_PAPERWORK, "Submit to Provider"), (.SUBMITTED_TO_PROVIDER, "submitted_to_provider")),
    ((.SUBMITTED_TO_PROVIDER, "Provider Uplifted"), (.PROVIDER_UPLIFTED, "provider_uplifted")),
    ((.PROVIDER_UPLIFTED, "Close Fee in IO & Create New"), (.IO_CLOSED_NEW_FEE, "io_closed_new_fee")),
    ((.IO_CLOSED_NEW_FEE, "Complete Case"), (.COMPLETED, "completed")) ]

/-- Dictionary lookup `TRANSITIONS[key]` / `key in TRANSITIONS`. -/
def transitionsLookup (key : CaseStatus × String) : Option (CaseStatus × String) :=
  (TRANSITIONS.find? (fun e => e.1 = key)).map Prod.snd

/-- Python `timedelta(days = d)`, with timestamps counted in seconds. -/
def timedeltaDays (d : Int) : Int := d * 86400

/-- A row of the `tasks` table, as created by `create_task_for_case`. -/
structure Task where
  team : String
  title : String
  status : TaskStatus
  due_at : Int
deriving DecidableEq, Repr

/-- A row of the `audit_logs` table, as created by `log_action`. -/
structure AuditLog where
  user_id : Option Int
  action : String
  notes : String
deriving DecidableEq, Repr

/-- A `Case` row together with its ORM relationship collections
`tasks` and `logs`.  `assigned_team` holds the name of the related
`Team` row (`none` models a `NULL` foreign key). -/
structure Case where
  title : String
  status : CaseStatus
  assigned_team : Option String
  sla_days : Int
  created_at : Int
  due_at : Option Int
  tasks : List Task
  logs : List AuditLog
deriving DecidableEq, Repr

/-- `assign_next_team(session, case)`.  The `Team` table is passed as
the list `teams` of team names; `session.query(Team).filter(Team.name
== hint).first()` becomes `teams.find?`.  Python's `if not hint` is
true for `None` and for the empty string. -/
def assign_next_team (teams : List String) (c : Case) : Case :=
  match NEXT_TEAM_HINT c.status with
  | none => { c with assigned_team := none }
  | some hint =>
    if hint = "" then { c with assigned_team := none }
    else { c with assigned_team := teams.find? (fun t => t = hint) }

/-- `create_task_for_case(session, case, title, due_days)`: no-op when
the case has no assigned team, otherwise adds one OPEN task owned by
that team, due `due_days` days from `now`. -/
def create_task_for_case (now : Int) (c : Case) (title : String) (due_days : Int) : Case :=
  match c.assigned_team with
  | none => c
  | some team =>
    { c with tasks := c.tasks ++
        [{ team := team, title := title, status := TaskStatus.OPEN,
           due_at := now + timedeltaDays due_days }] }

/-- `log_action(session, case, user, action, notes, meta)`: appends one
audit-log row. -/
def log_action (c : Case) (user : Option Int) (action : String) (notes : String) : Case :=
  { c with logs := c.logs ++ [{ user_id := user, action := action, notes := notes }] }

/-- `apply_transition(session, case, user, action_label, notes)`.
Returns the Python `bool` result paired with the resulting case state;
on failure the case is returned untouched, as in the source where the
function returns `False` before any mutation. -/
def apply_transition (teams : List String) (now : Int) (c : Case)
    (user : Option Int) (action_label : String) (notes : String) : Bool × Case :=
  match transitionsLookup (c.status, action_label) with
  | none => (false, c)
  | some (new_status, audit_action) =>
    let c1 := { c with status := new_status }
    let c2 := { c1 with due_at := some (now + timedeltaDays c.sla_days) }
    let c3 := assign_next_team teams c2
    let c4 := create_task_for_case now c3 (new_status.value ++ " — next step") 5
    let c5 := log_action c4 user audit_action notes
    (true, c5)

/-- The persisted store touched by the case-creation form of
`page_cases`: providers and clients are rows upserted by unique name. -/
structure Store where
  providers : List String
  clients : List String
  cases : List Case
deriving DecidableEq, Repr

/-- The "Create Case" flow of `page_cases` (src lines 441-468): ensure
the provider and client rows exist (inserting them whatever the name,
the form performs no validation), build the case in `DRAFT` with no due
date, run `assign_next_team` once, persist, then log a "created" audit
entry.  Always succeeds. -/
def page_cases_create (s : Store) (teams : List String) (now : Int)
    (title client_name provider_name : String) (sla_days : Int)
    (user : Option Int) : Store :=
  let providers :=
    if s.providers.contains provider_name then s.providers
    else s.providers ++ [provider_name]
  let clients :=
    if s.clients.contains client_name then s.clients
    else s.clients ++ [client_name]
  let case0 : Case :=
    { title := title, status := CaseStatus.DRAFT, assigned_team := none,
      sla_days := sla_days, created_at := now, due_at := none,
      tasks := [], logs := [] }
  let case1 := assign_next_team teams case0
  let case2 := log_action case1 user "created" "Case created"
  { providers := providers, clients := clients, cases := s.cases ++ [case2] }

/-- A freshly created case as produced by the creation flow, for
driving transition sequences. -/
def freshCase (teams : List String) (now : Int) (title : String) (sla_days : Int) : Case :=
  log_action (assign_next_team teams
    { title := title, status := CaseStatus.DRAFT, assigned_team := none,
      sla_days := sla_days, created_at := now, due_at := none,
      tasks := [], logs := [] }) none "created" "Case created"

/-- Applies a list of action labels in order via `apply_transition`;
the Bool is `true` iff every step succeeded.  Stops at the first
failure, leaving the case as it then stands. -/
def apply_sequence (teams : List String) (now : Int) (c : Case)
    (labels : List String) : Bool × Case :=
  match labels with
  | [] => (true, c)
  | l :: ls =>
    let r := apply_transition teams now c none l ""
    if r.1 then apply_sequence teams now r.2 ls else (false, r.2)

/-- A simple concrete case record for instantiating theorems: the
given status, default SLA of 10 days, no team, no tasks, no logs. -/
def sampleCase (st : CaseStatus) : Case :=
  { title := "Fee uplift — client letter", status := st, assigned_team := none,
    sla_days := 10, created_at := 0, due_at := none, tasks := [], logs := [] }

/-- An empty persisted store (no providers, clients or cases). -/
def emptyStore : Store := { providers := [], clients := [], cases := [] }

/-- The outgoing transitions of a status: the entries of `TRANSITIONS`
whose source status is `s`. -/
def outgoing (s : CaseStatus) : List ((CaseStatus × String) × (CaseStatus × String)) :=
  TRANSITIONS.filter (fun e => e.1.1 = s)

/-- The statuses of the legal path of §8 of the spec, in order. -/
def legalPathStatuses : List CaseStatus :=
  [.DRAFT, .READY_TO_SEND, .SENT_TO_CLIENT, .CLIENT_SIGNED, .RECEIVED_PAPERWORK,
   .SUBMITTED_TO_PROVIDER, .PROVIDER_UPLIFTED, .IO_CLOSED_NEW_FEE, .COMPLETED]

/-- The action labels that move a case along `legalPathStatuses`, read
off the transition table in path order. -/
def legalPathLabels : List String :=
  (legalPathStatuses.zip legalPathStatuses.tail).filterMap (fun st =>
    (TRANSITIONS.find? (fun e => e.1.1 = st.1 ∧ e.2.1 = st.2)).map (fun e => e.1.2))

/-! Helper lemmas about the engine's building blocks. -/

theorem apply_transition_of_lookup_none (teams : List String) (now : Int) (c : Case)
    (user : Option Int) (action_label notes : String)
    (h : transitionsLookup (c.status, action_label) = none) :
    apply_transition teams now c user action_label notes = (false, c) := by
  unfold apply_transition
  rw [h]

theorem apply_transition_of_lookup_some (teams : List String) (now : Int) (c : Case)
    (user : Option Int) (action_label notes : String) (ns : CaseStatus) (aa : String)
    (h : transitionsLookup (c.status, action_label) = some (ns, aa)) :
    apply_transition teams now c user action_label notes =
      (true,
        log_action
          (create_task_for_case now
            (assign_next_team teams
              { c with status := ns, due_at := some (now + timedeltaDays c.sla_days) })
            (ns.value ++ " — next step") 5)
          user aa notes) := by
  unfold apply_transition
  rw [h]

theorem assign_next_team_tasks (teams : List String) (c : Case) :
    (assign_next_team teams c).tasks = c.tasks := by
  unfold assign_next_team
  split
  · rfl
  · split <;> rfl

theorem assign_next_team_logs (teams : List String) (c : Case) :
    (assign_next_team teams c).logs = c.logs := by
  unfold assign_next_team
  split
  · rfl
  · split <;> rfl

theorem assign_next_team_status (teams : List String) (c : Case) :
    (assign_next_team teams c).status = c.status := by
  unfold assign_next_team
  split
  · rfl
  · split <;> rfl

theorem assign_next_team_due_at (teams : List String) (c : Case) :
    (assign_next_team teams c).due_at = c.due_at := by
  unfold assign_next_team
  split
  · rfl
  · split <;> rfl

theorem assign_next_team_assigned (teams : List String) (c : Case) :
    (assign_next_team teams c).assigned_team =
      match NEXT_TEAM_HINT c.status with
      | none => none
      | some hint => if hint = "" then none else teams.find? (fun t => t = hint) := by
  unfold assign_next_team
  split
  · rfl
  · split <;> rfl

theorem create_task_for_case_assigned (now : Int) (c : Case) (title : String) (d : Int) :
    (create_task_for_case now c title d).assigned_team = c.assigned_team := by
  unfold create_task_for_case
  split <;> rfl

theorem create_task_for_case_logs (now : Int) (c : Case) (title : String) (d : Int) :
    (create_task_for_case now c title d).logs = c.logs := by
  unfold create_task_for_case
  split <;> rfl

theorem create_task_for_case_status (now : Int) (c : Case) (title : String) (d : Int) :
    (create_task_for_case now c title d).status = c.status := by
  unfold create_task_for_case
  split <;> rfl

theorem create_task_for_case_due_at (now : Int) (c : Case) (title : String) (d : Int) :
    (create_task_for_case now c title d).due_at = c.due_at := by
  unfold create_task_for_case
  split <;> rfl

theorem create_task_for_case_tasks_length (now : Int) (c : Case) (title : String) (d : Int) :
    (create_task_for_case now c title d).tasks.length =
      c.tasks.length + (if c.assigned_team.isSome then 1 else 0) := by
  unfold create_task_for_case
  split <;> rename_i heq <;> simp [heq]

theorem create_task_for_case_of_none (now : Int) (c : Case) (title : String) (d : Int)
    (h : c.assigned_team = none) :
    create_task_for_case now c title d = c := by
  unfold create_task_for_case
  rw [h]

theorem log_action_fields (c : Case) (user : Option Int) (action notes : String) :
    (log_action c user action notes).status = c.status ∧
    (log_action c user action notes).assigned_team = c.assigned_team ∧
    (log_action c user action notes).due_at = c.due_at ∧
    (log_action c user action notes).tasks = c.tasks ∧
    (log_action c user action notes).logs.length = c.logs.length + 1 := by
  unfold log_action
  refine ⟨rfl, rfl, rfl, rfl, ?_⟩
  simp

/-! Claim theorems. -/

/-- C1: whenever `(case.status, action_label)` is not a key of the
transition table, `apply_transition` fails (returns `false`) and the
case is returned byte-for-byte unchanged — status, due_at,
assigned_team, task list and audit list untouched, and no Task or
AuditLog row created. -/
theorem C1_illegal_transition_leaves_case_unmodified (teams : List String) (now : Int)
    (c : Case) (user : Option Int) (action_label notes : String)
    (h : transitionsLookup (c.status, action_label) = none) :
    apply_transition teams now c user action_label notes = (false, c) :=
  apply_transition_of_lookup_none teams now c user action_label notes h

theorem C1_witness :
    transitionsLookup ((sampleCase CaseStatus.COMPLETED).status, "Complete Case") = none ∧
    apply_transition DEFAULT_TEAMS 0 (sampleCase CaseStatus.COMPLETED) none "Complete Case" ""
      = (false, sampleCase CaseStatus.COMPLETED) :=
  ⟨by decide,
   C1_illegal_transition_leaves_case_unmodified DEFAULT_TEAMS 0
     (sampleCase CaseStatus.COMPLETED) none "Complete Case" "" (by decide)⟩

/-- C2 counterexample: the transition from IO_CLOSED_NEW_FEE into
COMPLETED (with the default team table) succeeds but creates NO Task,
because COMPLETED has no team hint, refuting "exactly one new Task …
for every transition in the table, including the final transition into
COMPLETED". -/
theorem C2_counterexample :
    (apply_transition DEFAULT_TEAMS 0 (sampleCase CaseStatus.IO_CLOSED_NEW_FEE)
        none "Complete Case" "").1 = true ∧
    (apply_transition DEFAULT_TEAMS 0 (sampleCase CaseStatus.IO_CLOSED_NEW_FEE)
        none "Complete Case" "").2.tasks = [] := by
  constructor <;> decide

/-- C2 (amended): every successful `apply_transition` creates exactly
one new AuditLog entry; it creates exactly one new Task when the
routing step assigned a team, and none otherwise (in particular none on
the final transition into COMPLETED, whose team hint is `none`). -/
theorem C2_amended_one_audit_task_iff_team (teams : List String) (now : Int) (c : Case)
    (user : Option Int) (action_label notes : String) (ns : CaseStatus) (aa : String)
    (h : transitionsLookup (c.status, action_label) = some (ns, aa)) :
    (apply_transition teams now c user action_label notes).1 = true ∧
    (apply_transition teams now c user action_label notes).2.logs.length
      = c.logs.length + 1 ∧
    (apply_transition teams now c user action_label notes).2.tasks.length
      = c.tasks.length +
        (if (apply_transition teams now c user action_label notes).2.assigned_team.isSome
         then 1 else 0) := by
  rw [apply_transition_of_lookup_some teams now c user action_label notes ns aa h]
  refine ⟨rfl, ?_, ?_⟩
  · have hl := (log_action_fields (create_task_for_case now
      (assign_next_team teams
        { c with status := ns, due_at := some (now + timedeltaDays c.sla_days) })
      (ns.value ++ " — next step") 5) user aa notes).2.2.2.2
    rw [hl, create_task_for_case_logs, assign_next_team_logs]
  · have hl := log_action_fields (create_task_for_case now
      (assign_next_team teams
        { c with status := ns, due_at := some (now + timedeltaDays c.sla_days) })
      (ns.value ++ " — next step") 5) user aa notes
    rw [hl.2.2.2.1, hl.2.1, create_task_for_case_tasks_length,
      create_task_for_case_assigned, assign_next_team_tasks]

theorem C2_witness :
    transitionsLookup ((sampleCase CaseStatus.DRAFT).status, "Mark Ready to Send")
      = some (CaseStatus.READY_TO_SEND, "ready_to_send") ∧
    ((apply_transition DEFAULT_TEAMS 0 (sampleCase CaseStatus.DRAFT)
        none "Mark Ready to Send" "").1 = true ∧
     (apply_transition DEFAULT_TEAMS 0 (sampleCase CaseStatus.DRAFT)
        none "Mark Ready to Send" "").2.logs.length
       = (sampleCase CaseStatus.DRAFT).logs.length + 1 ∧
     (apply_transition DEFAULT_TEAMS 0 (sampleCase CaseStatus.DRAFT)
        none "Mark Ready to Send" "").2.tasks.length
       = (sampleCase CaseStatus.DRAFT).tasks.length +
         (if (apply_transition DEFAULT_TEAMS 0 (sampleCase CaseStatus.DRAFT)
              none "Mark Ready to Send" "").2.assigned_team.isSome
          then 1 else 0)) :=
  ⟨by decide,
   C2_amended_one_audit_task_iff_team DEFAULT_TEAMS 0 (sampleCase CaseStatus.DRAFT)
     none "Mark Ready to Send" "" CaseStatus.READY_TO_SEND "ready_to_send" (by decide)⟩

/-- C3 counterexample: with the default team table, the transition
"Mark Client Opted Out" from SENT_TO_CLIENT reaches the terminal status
CLIENT_OPTED_OUT yet assigns team "Support Hub" (its routing hint is
not `none`), refuting "a transition into either terminal status …
leaves the case with no assigned team". -/
theorem C3_counterexample :
    (apply_transition DEFAULT_TEAMS 0 (sampleCase CaseStatus.SENT_TO_CLIENT)
        none "Mark Client Opted Out" "").2.status = CaseStatus.CLIENT_OPTED_OUT ∧
    (apply_transition DEFAULT_TEAMS 0 (sampleCase CaseStatus.SENT_TO_CLIENT)
        none "Mark Client Opted Out" "").2.assigned_team = some "Support Hub" := by
  constructor <;> decide

/-- C3 (amended): a successful `apply_transition` recomputes
`assigned_team` by running `assign_next_team` on the case at its NEW
status; when the routing policy has no hint for the new status the
assignment is cleared to `none`; and COMPLETED is the only status with
no hint — CLIENT_OPTED_OUT, though terminal, hints "Support Hub". -/
theorem C3_amended_routing_recomputed (teams : List String) (now : Int) (c : Case)
    (user : Option Int) (action_label notes : String) (ns : CaseStatus) (aa : String)
    (h : transitionsLookup (c.status, action_label) = some (ns, aa)) :
    (apply_transition teams now c user action_label notes).2.assigned_team
      = (assign_next_team teams { c with status := ns }).assigned_team ∧
    (NEXT_TEAM_HINT ns = none →
      (apply_transition teams now c user action_label notes).2.assigned_team = none) ∧
    (∀ s : CaseStatus, NEXT_TEAM_HINT s = none ↔ s = CaseStatus.COMPLETED) := by
  rw [apply_transition_of_lookup_some teams now c user action_label notes ns aa h]
  have hl := (log_action_fields (create_task_for_case now
    (assign_next_team teams
      { c with status := ns, due_at := some (now + timedeltaDays c.sla_days) })
    (ns.value ++ " — next step") 5) user aa notes).2.1
  refine ⟨?_, ?_, by decide⟩
  · rw [hl, create_task_for_case_assigned, assign_next_team_assigned,
      assign_next_team_assigned]
  · intro hns
    rw [hl, create_task_for_case_assigned, assign_next_team_assigned]
    simp [hns]

theorem C3_witness :
    transitionsLookup ((sampleCase CaseStatus.IO_CLOSED_NEW_FEE).status, "Complete Case")
      = some (CaseStatus.COMPLETED, "completed") ∧
    ((apply_transition DEFAULT_TEAMS 0 (sampleCase CaseStatus.IO_CLOSED_NEW_FEE)
        none "Complete Case" "").2.assigned_team
      = (assign_next_team DEFAULT_TEAMS
          { sampleCase CaseStatus.IO_CLOSED_NEW_FEE with
              status := CaseStatus.COMPLETED }).assigned_team ∧
     (NEXT_TEAM_HINT CaseStatus.COMPLETED = none →
       (apply_transition DEFAULT_TEAMS 0 (sampleCase CaseStatus.IO_CLOSED_NEW_FEE)
          none "Complete Case" "").2.assigned_team = none) ∧
     (∀ s : CaseStatus, NEXT_TEAM_HINT s = none ↔ s = CaseStatus.COMPLETED)) :=
  ⟨by decide,
   C3_amended_routing_recomputed DEFAULT_TEAMS 0 (sampleCase CaseStatus.IO_CLOSED_NEW_FEE)
     none "Complete Case" "" CaseStatus.COMPLETED "completed" (by decide)⟩

/-- C4: every successful `apply_transition` executed at time `now` sets
`due_at` to `now` plus `sla_days` days — computed from the transition
time alone, not from `created_at` or the previous `due_at`. -/
theorem C4_due_at_resets_from_transition_time (teams : List String) (now : Int) (c : Case)
    (user : Option Int) (action_label notes : String)
    (h : (apply_transition teams now c user action_label notes).1 = true) :
    (apply_transition teams now c user action_label notes).2.due_at
      = some (now + timedeltaDays c.sla_days) := by
  rcases hl : transitionsLookup (c.status, action_label) with _ | v
  · rw [apply_transition_of_lookup_none teams now c user action_label notes hl] at h
    simp at h
  · obtain ⟨ns, aa⟩ := v
    rw [apply_transition_of_lookup_some teams now c user action_label notes ns aa hl]
    have hlog := (log_action_fields (create_task_for_case now
      (assign_next_team teams
        { c with status := ns, due_at := some (now + timedeltaDays c.sla_days) })
      (ns.value ++ " — next step") 5) user aa notes).2.2.1
    rw [hlog, create_task_for_case_due_at, assign_next_team_due_at]

theorem C4_witness :
    (apply_transition DEFAULT_TEAMS 86400 (sampleCase CaseStatus.DRAFT)
        none "Mark Ready to Send" "").1 = true ∧
    (sampleCase CaseStatus.DRAFT).sla_days = 10 ∧
    86400 + timedeltaDays 10 = timedeltaDays 11 ∧
    (apply_transition DEFAULT_TEAMS 86400 (sampleCase CaseStatus.DRAFT)
        none "Mark Ready to Send" "").2.due_at
      = some (86400 + timedeltaDays (sampleCase CaseStatus.DRAFT).sla_days) :=
  ⟨by decide, by decide, by decide,
   C4_due_at_resets_from_transition_time DEFAULT_TEAMS 86400 (sampleCase CaseStatus.DRAFT)
     none "Mark Ready to Send" "" (by decide)⟩

/-- C5 counterexample: the legal path DRAFT → … → COMPLETED consists of
eight transitions, hence eight action labels read off the transition
table, not nine as the claim states. -/
theorem C5_counterexample :
    legalPathLabels.length = 8 ∧ legalPathLabels.length ≠ 9 := by
  constructor <;> decide

/-- C5 (amended): starting from a freshly created case in DRAFT (with
the default team table), applying the EIGHT action labels of the legal
path DRAFT → READY_TO_SEND → SENT_TO_CLIENT → CLIENT_SIGNED →
RECEIVED_PAPERWORK → SUBMITTED_TO_PROVIDER → PROVIDER_UPLIFTED →
IO_CLOSED_NEW_FEE → COMPLETED in order succeeds at every step, and the
final state is COMPLETED with no assigned team. -/
theorem C5_amended_legal_path_succeeds :
    (apply_sequence DEFAULT_TEAMS 0
        (freshCase DEFAULT_TEAMS 0 "Fee uplift — client letter" 10) legalPathLabels).1
      = true ∧
    (apply_sequence DEFAULT_TEAMS 0
        (freshCase DEFAULT_TEAMS 0 "Fee uplift — client letter" 10) legalPathLabels).2.status
      = CaseStatus.COMPLETED ∧
    (apply_sequence DEFAULT_TEAMS 0
        (freshCase DEFAULT_TEAMS 0 "Fee uplift — client letter" 10)
        legalPathLabels).2.assigned_team
      = none := by
  refine ⟨by decide, by decide, by decide⟩

/-- C6: for every entry `((from, label), (to, audit))` of the
transition table, `(to, label)` is not itself a key of the table, so
repeating the same action label immediately after a success fails and
returns the case unchanged — rejection is idempotent and effect-free. -/
theorem C6_rejection_is_idempotent (e : (CaseStatus × String) × (CaseStatus × String))
    (he : e ∈ TRANSITIONS) (teams : List String) (now : Int) (c : Case)
    (user : Option Int) (notes : String) (hst : c.status = e.2.1) :
    transitionsLookup (c.status, e.1.2) = none ∧
    apply_transition teams now c user e.1.2 notes = (false, c) := by
  have hall : ∀ x ∈ TRANSITIONS, transitionsLookup (x.2.1, x.1.2) = none := by decide
  have hnone : transitionsLookup (c.status, e.1.2) = none := by
    rw [hst]
    exact hall e he
  exact ⟨hnone, apply_transition_of_lookup_none teams now c user e.1.2 notes hnone⟩

theorem C6_witness :
    (((CaseStatus.DRAFT, "Mark Ready to Send"),
        (CaseStatus.READY_TO_SEND, "ready_to_send")) ∈ TRANSITIONS) ∧
    (sampleCase CaseStatus.READY_TO_SEND).status = CaseStatus.READY_TO_SEND ∧
    (transitionsLookup ((sampleCase CaseStatus.READY_TO_SEND).status, "Mark Ready to Send")
        = none ∧
      apply_transition DEFAULT_TEAMS 0 (sampleCase CaseStatus.READY_TO_SEND)
          none "Mark Ready to Send" ""
        = (false, sampleCase CaseStatus.READY_TO_SEND)) :=
  ⟨by decide, rfl,
   C6_rejection_is_idempotent
     ((CaseStatus.DRAFT, "Mark Ready to Send"), (CaseStatus.READY_TO_SEND, "ready_to_send"))
     (by decide) DEFAULT_TEAMS 0 (sampleCase CaseStatus.READY_TO_SEND) none "" rfl⟩

/-- C7: CLIENT_OPTED_OUT and COMPLETED have no outgoing transition in
the table, and every other status has exactly one or exactly two
outgoing transitions whose action labels are pairwise distinct. -/
theorem C7_transition_table_shape :
    outgoing CaseStatus.CLIENT_OPTED_OUT = [] ∧
    outgoing CaseStatus.COMPLETED = [] ∧
    ∀ s : CaseStatus, s ≠ CaseStatus.CLIENT_OPTED_OUT → s ≠ CaseStatus.COMPLETED →
      (((outgoing s).length = 1 ∨ (outgoing s).length = 2) ∧
        ((outgoing s).map (fun e => e.1.2)).Nodup) := by
  refine ⟨by decide, by decide, by decide⟩

theorem C7_witness :
    ((outgoing CaseStatus.SENT_TO_CLIENT).length = 1 ∨
      (outgoing CaseStatus.SENT_TO_CLIENT).length = 2) ∧
    ((outgoing CaseStatus.SENT_TO_CLIENT).map (fun e => e.1.2)).Nodup :=
  C7_transition_table_shape.2.2 CaseStatus.SENT_TO_CLIENT (by decide) (by decide)

/-- C8: the creation form of `page_cases` performs no validation —
submitting empty client and provider names persists a Provider row and
a Client row with empty names plus the new Case (with its "created"
audit entry); nothing is rejected, contradicting the spec's
ValidationError contract, so the code diverges from the claim. -/
theorem C8_empty_names_are_persisted :
    (page_cases_create emptyStore DEFAULT_TEAMS 0
        "Fee uplift — client letter" "" "" 10 none).providers = [""] ∧
    (page_cases_create emptyStore DEFAULT_TEAMS 0
        "Fee uplift — client letter" "" "" 10 none).clients = [""] ∧
    (page_cases_create emptyStore DEFAULT_TEAMS 0
        "Fee uplift — client letter" "" "" 10 none).cases.length = 1 ∧
    ((page_cases_create emptyStore DEFAULT_TEAMS 0
        "Fee uplift — client letter" "" "" 10 none).cases.map
      (fun k => k.logs.length)) = [1] := by
  refine ⟨by decide, by decide, by decide, by decide⟩

/-- C10: when the routing policy hints a team name for the new status
but no Team row with that name exists, the transition still succeeds,
`assign_next_team` leaves `assigned_team = none`, and consequently
`create_task_for_case` creates no Task. -/
theorem C10_missing_team_row_no_task (teams : List String) (now : Int) (c : Case)
    (user : Option Int) (action_label notes : String) (ns : CaseStatus) (aa hint : String)
    (hl : transitionsLookup (c.status, action_label) = some (ns, aa))
    (hhint : NEXT_TEAM_HINT ns = some hint)
    (hmiss : teams.find? (fun t => t = hint) = none) :
    (assign_next_team teams { c with status := ns }).assigned_team = none ∧
    (apply_transition teams now c user action_label notes).1 = true ∧
    (apply_transition teams now c user action_label notes).2.assigned_team = none ∧
    (apply_transition teams now c user action_label notes).2.tasks = c.tasks := by
  have hassign : ∀ d : Case, d.status = ns →
      (assign_next_team teams d).assigned_team = none := by
    intro d hd
    rw [assign_next_team_assigned, hd, hhint]
    by_cases hE : hint = "" <;> simp [hE, hmiss]
  rw [apply_transition_of_lookup_some teams now c user action_label notes ns aa hl]
  have hlog := log_action_fields (create_task_for_case now
    (assign_next_team teams
      { c with status := ns, due_at := some (now + timedeltaDays c.sla_days) })
    (ns.value ++ " — next step") 5) user aa notes
  have hA : (assign_next_team teams
      { c with status := ns, due_at := some (now + timedeltaDays c.sla_days) }).assigned_team
      = none := hassign _ rfl
  have hskip : create_task_for_case now
      (assign_next_team teams
        { c with status := ns, due_at := some (now + timedeltaDays c.sla_days) })
      (ns.value ++ " — next step") 5
      = assign_next_team teams
          { c with status := ns, due_at := some (now + timedeltaDays c.sla_days) } :=
    create_task_for_case_of_none _ _ _ _ hA
  refine ⟨hassign _ rfl, rfl, ?_, ?_⟩
  · rw [hlog.2.1, hskip, hA]
  · rw [hlog.2.2.2.1, hskip, assign_next_team_tasks]

theorem C10_witness :
    transitionsLookup ((sampleCase CaseStatus.DRAFT).status, "Mark Ready to Send")
      = some (CaseStatus.READY_TO_SEND, "ready_to_send") ∧
    NEXT_TEAM_HINT CaseStatus.READY_TO_SEND = some "Admin Solution" ∧
    (List.find? (fun t => t = "Admin Solution") [] = none) ∧
    ((assign_next_team []
        { sampleCase CaseStatus.DRAFT with
            status := CaseStatus.READY_TO_SEND }).assigned_team = none ∧
     (apply_transition [] 0 (sampleCase CaseStatus.DRAFT)
        none "Mark Ready to Send" "").1 = true ∧
     (apply_transition [] 0 (sampleCase CaseStatus.DRAFT)
        none "Mark Ready to Send" "").2.assigned_team = none ∧
     (apply_transition [] 0 (sampleCase CaseStatus.DRAFT)
        none "Mark Ready to Send" "").2.tasks = (sampleCase CaseStatus.DRAFT).tasks) :=
  ⟨by decide, by decide, by decide,
   C10_missing_team_row_no_task [] 0 (sampleCase CaseStatus.DRAFT) none
     "Mark Ready to Send" "" CaseStatus.READY_TO_SEND "ready_to_send" "Admin Solution"
     (by decide) (by decide) (by decide)⟩

end WorkflowApp
